import Mathlib

set_option autoImplicit false
set_option maxRecDepth 8192

/-!
Verification development for the sqlrooms duckdb server gateway.

Each Python module of the repository is shallowly embedded as executable
Lean definitions: dict-like caches and the active-query registry become
association lists with Python-dict update semantics, fallible calls become
`Except`, and the fallible environment (filesystem, engine) is passed in
explicitly as outcome parameters.
-/

namespace SqlRooms

/-- A value stored in the result cache: either a textual JSON payload or a
binary Arrow buffer, mirroring the two payload kinds produced by the query
layer (`get_json` returns a string, `get_arrow_bytes` returns bytes). -/
inductive Val where
| vstr : String → Val
| vbytes : List Nat → Val
deriving DecidableEq, Repr

/-- Python truthiness of a cached payload: an empty string and an empty bytes
object are falsy, every other value is truthy.  This is the test performed by
`if result:` in `cache.retrieve`. -/
def Val.truthy : Val → Bool
| Val.vstr s => !s.isEmpty
| Val.vbytes b => !b.isEmpty

/-- The dict-like result cache, as an association list with unique keys
(Python dict semantics: insertion order, assignment replaces in place). -/
abbrev Cache := List (String × Val)

/-- `cache.get(key)` on a Python dict: the value of the entry with that key
(a dict holds at most one entry per key). -/
def cacheGet (c : Cache) (k : String) : Option Val :=
  match c with
  | [] => none
  | p :: t => if p.1 == k then some p.2 else cacheGet t k

/-- `cache[key] = value` on a Python dict: replace the existing entry in
place, otherwise append a new one. -/
def cacheSet (c : Cache) (k : String) (v : Val) : Cache :=
  match c with
  | [] => [(k, v)]
  | p :: t => if p.1 == k then (k, v) :: t else p :: cacheSet t k v

/-- `cache.get_key`: the hex digest of the SQL text joined to the logical
command scope with a dot.  The SHA-256 digest from Python's hashlib is a
library call, embedded here as the parameter `h`. -/
def get_key (h : String → String) (sql command : String) : String :=
  h sql ++ "." ++ command

/-- The fields of a command dictionary read by `cache.retrieve`:
`query.get("sql")`, `query.get("type")` and `query.get("persist", False)`
(the Python default `False` is folded into the field). -/
structure CacheQuery where
  sql : String
  type : String
  persist : Bool
deriving DecidableEq, Repr

/-- Outcome of one `cache.retrieve` call: the returned value or the
propagated producer exception (of any exception type `ε`), the cache
contents after the call, and whether the producer `get` was invoked. -/
structure RetrieveOut (ε : Type) where
  result : Except ε Val
  cache : Cache
  producerCalled : Bool
deriving Repr

/-- The miss path of `cache.retrieve`: run the producer; on success store the
value only when `persist` is true and return it; a producer exception is
re-raised (`except Exception as e: ... raise`) with the cache untouched. -/
def retrieveMiss {ε : Type} (cache : Cache) (key : String) (persist : Bool)
    (r : Except ε Val) : RetrieveOut ε :=
  match r with
  | Except.ok v =>
      { result := Except.ok v
        cache := if persist then cacheSet cache key v else cache
        producerCalled := true }
  | Except.error e =>
      { result := Except.error e, cache := cache, producerCalled := true }

/-- Shallow embedding of `cache.retrieve`: look up `get_key(sql, type)`; a
present and truthy value is returned unchanged (the code tests `if result:`,
Python truthiness, not presence); otherwise the producer runs via
`retrieveMiss`. -/
def retrieve {ε : Type} (h : String → String) (cache : Cache) (query : CacheQuery)
    (get : String → Except ε Val) : RetrieveOut ε :=
  match cacheGet cache (get_key h query.sql query.type) with
  | some v =>
      if v.truthy then
        { result := Except.ok v, cache := cache, producerCalled := false }
      else
        retrieveMiss cache (get_key h query.sql query.type) query.persist (get query.sql)
  | none =>
      retrieveMiss cache (get_key h query.sql query.type) query.persist (get query.sql)

/-- An entry of the active-query registry `active_queries` in `db_async`:
`query_id -> (Future, cursor)`.  Cursors are identified by numeric ids; the
future is not inspected by the embedded operations and is omitted. -/
structure QueryRecord where
  cursorId : Nat
deriving DecidableEq, Repr

/-- The active-query registry, a Python dict with unique keys. -/
abbrev Registry := List (String × QueryRecord)

/-- `active_queries.get(query_id)`: dict lookup. -/
def regGet (reg : Registry) (k : String) : Option QueryRecord :=
  match reg with
  | [] => none
  | p :: t => if p.1 == k then some p.2 else regGet t k

/-- `db_async.register_query`: `active_queries[query_id] = (future, cursor)`,
dict assignment — replace the existing entry in place, otherwise append. -/
def register_query (reg : Registry) (k : String) (v : QueryRecord) : Registry :=
  match reg with
  | [] => [(k, v)]
  | p :: t => if p.1 == k then (k, v) :: t else p :: register_query t k v

/-- `db_async.unregister_query`: `active_queries.pop(query_id, None)` —
remove the entry with that key (a dict holds at most one). -/
def unregister_query (reg : Registry) (k : String) : Registry :=
  match reg with
  | [] => []
  | p :: t => if p.1 == k then t else p :: unregister_query t k

/-- Outcome of `db_async.cancel_query`: the returned boolean and the cursors
on which `interrupt()` was actually delivered. -/
structure CancelOut where
  found : Bool
  interrupted : List Nat
deriving DecidableEq, Repr

/-- Shallow embedding of `db_async.cancel_query`: look the id up under the
registry lock; if found, invoke `interrupt()` on the record's cursor (an
exception from the interrupt, modelled by `interruptRaises`, is logged and
does not propagate) and return true; otherwise return false.  The registry
itself is not modified. -/
def cancel_query (interruptRaises : Nat → Bool) (reg : Registry)
    (qid : String) : CancelOut :=
  match regGet reg qid with
  | some r =>
      { found := true
        interrupted := if interruptRaises r.cursorId then [] else [r.cursorId] }
  | none => { found := false, interrupted := [] }

/-- HTTP status produced by `CancelQueryResource.on_post`: a missing or empty
`queryId` (Python falsiness of `if not query_id`) yields 400; otherwise 200
when `cancel_query` found the id and 404 when it did not. -/
def cancelOnPostStatus (interruptRaises : Nat → Bool) (reg : Registry)
    (queryId : Option String) : Nat :=
  match queryId with
  | none => 400
  | some qid =>
      if qid.isEmpty then 400
      else if (cancel_query interruptRaises reg qid).found then 200 else 404

/-- An exception escaping the user closure inside the worker: an engine
error, or the engine's interrupt signal (`duckdb.InterruptException`). -/
inductive WorkerErr where
| engineError : String → WorkerErr
| interrupted : WorkerErr
deriving DecidableEq, Repr

/-- Errors surfaced by `run_db_task` to the awaiting caller. -/
inductive DbErr where
| noEngine
| cancelled
| engineError : String → DbErr
deriving DecidableEq, Repr

/-- Result of the `_runner` closure: the future's payload plus whether the
per-task cursor was closed.  `_runner` converts `InterruptException` to
`CancelledError`, and its `finally` block closes the cursor on every path,
swallowing close errors. -/
structure RunnerOut (α : Type) where
  result : Except DbErr α
  cursorClosed : Bool

/-- Shallow embedding of the `_runner` closure in `db_async.run_db_task`:
the user closure exits with `outcome`. -/
def runner {α : Type} (outcome : Except WorkerErr α) : RunnerOut α :=
  match outcome with
  | Except.ok v => { result := Except.ok v, cursorClosed := true }
  | Except.error (WorkerErr.engineError m) =>
      { result := Except.error (DbErr.engineError m), cursorClosed := true }
  | Except.error WorkerErr.interrupted =>
      { result := Except.error DbErr.cancelled, cursorClosed := true }

/-- `qid = query_id or generate_query_id()`: Python `or`, so a missing or
empty id is replaced by the generated one. -/
def effectiveQueryId (queryId : Option String) (genId : String) : String :=
  match queryId with
  | some s => if s.isEmpty then genId else s
  | none => genId

/-- Full trace of one `run_db_task` call: the caller-visible result, the
registry after the `finally` block, whether a per-task cursor was created
and whether it was closed, and which cursors received an interrupt. -/
structure RunDbTaskOut (α : Type) where
  result : Except DbErr α
  registry : Registry
  cursorCreated : Bool
  cursorClosed : Bool
  interrupted : List Nat

/-- Shallow embedding of `db_async.run_db_task`.  Inputs beyond the code's
own arguments describe the environment: whether `GLOBAL_CON` is initialized,
the current registry, the generated uuid, the id of the fresh cursor, how the
user's `execute_with_cursor` exits, whether the awaiting asyncio task is
cancelled externally, and which cursors' `interrupt()` raises.  The awaiting
caller catches `asyncio.CancelledError` — raised both by external
cancellation and by a worker that hit an engine interrupt — calls
`cancel_query` and re-raises; the `finally` block always unregisters the
id. -/
def run_db_task {α : Type} (conInit : Bool) (reg : Registry)
    (queryId : Option String) (genId : String) (cursorId : Nat)
    (outcome : Except WorkerErr α) (externalCancel : Bool)
    (interruptRaises : Nat → Bool) : RunDbTaskOut α :=
  if conInit = false then
    { result := Except.error DbErr.noEngine, registry := reg
      cursorCreated := false, cursorClosed := false, interrupted := [] }
  else
    let qid := effectiveQueryId queryId genId
    let workerOut := runner outcome
    let reg1 := register_query reg qid { cursorId := cursorId }
    let afterAwait : Except DbErr α × List Nat :=
      if externalCancel then
        (Except.error DbErr.cancelled,
         (cancel_query interruptRaises reg1 qid).interrupted)
      else
        match workerOut.result with
        | Except.error DbErr.cancelled =>
            (Except.error DbErr.cancelled,
             (cancel_query interruptRaises reg1 qid).interrupted)
        | r => (r, [])
    { result := afterAwait.1
      registry := unregister_query reg1 qid
      cursorCreated := true
      cursorClosed := workerOut.cursorClosed
      interrupted := afterAwait.2 }

/-- The mutable server-side state read and written by `server.handle_query`:
the `shutdown_requested` flag, the global connection's database path and
open/closed status (`GLOBAL_CON` / `DATABASE_PATH`), and the result cache. -/
structure ServerState where
  shutdownRequested : Bool
  databasePath : Option String
  connOpen : Bool
  cache : Cache
deriving DecidableEq, Repr

/-- Observable calls made while handling one command. -/
inductive Effect where
| deactivateBackend
| ensureTargetDir : String → Effect
| copyFile : String → String → Effect
| activateBackend : String → Effect
| engineDispatch : String → Effect
deriving DecidableEq, Repr

/-- `server.deactivate_backend`: block new queries
(`shutdown_requested = True`), cancel active queries, clear the cache, FORCE
CHECKPOINT and close the current connection.  Every internal step is
best-effort; the net state change is modelled. -/
def deactivate_backend (st : ServerState) : ServerState :=
  { st with shutdownRequested := true, cache := [], connOpen := false }

/-- `server.activate_backend`: reopen the global connection at the given path
(`init_global_connection`) and resume accepting queries
(`shutdown_requested = False`). -/
def activate_backend (st : ServerState) (path : String) : ServerState :=
  { st with databasePath := some path, connOpen := true, shutdownRequested := false }

/-- Failure environment for the saveProjectAs branch: for each fallible step,
`none` means the step succeeds and `some msg` means it raises `msg`.  A
failing `activate_backend` is modelled as `duckdb.connect` raising, which
leaves the state unchanged. -/
structure SaveEnv where
  ensureDirFail : Option String
  copyFail : Option String
  activateTargetFail : Option String
  activateSourceFail : Option String
deriving DecidableEq, Repr

/-- What `handle_query` delivers through its response handler:
`handler.done()`, `handler.arrow(...)`, `handler.json(...)` or
`handler.error(...)`. -/
inductive HQResp where
| done
| arrow : Val → HQResp
| json : Val → HQResp
| error : String → HQResp
deriving DecidableEq, Repr

/-- The rollback path of the saveProjectAs branch: attempt
`activate_backend(source_path)` — a failure of the restore itself is logged
and swallowed — then re-raise the original error, which the outer handler
turns into an error response. -/
def saveRollback (env : SaveEnv) (st : ServerState) (source : String)
    (origErr : String) (effs : List Effect) : HQResp × ServerState × List Effect :=
  match env.activateSourceFail with
  | some _ =>
      (HQResp.error origErr, st, effs ++ [Effect.activateBackend source])
  | none =>
      (HQResp.error origErr, activate_backend st source,
       effs ++ [Effect.activateBackend source])

/-- The quiesce-copy-swap procedure of the saveProjectAs branch of
`handle_query`, reached with distinct source and target paths: deactivate the
backend; ensure the target directory exists — an error here is caught and
only logged (`logger.warning`), execution continuing; copy the database
file; activate the backend at the target.  Only an error raised by the copy
or by the target activation reaches the `except` clause that performs the
rollback. -/
def saveProjectAs (env : SaveEnv) (st : ServerState) (source target : String) :
    HQResp × ServerState × List Effect :=
  let st1 := deactivate_backend st
  let effs1 := [Effect.deactivateBackend, Effect.ensureTargetDir target]
  match env.copyFail with
  | some msg => saveRollback env st1 source msg effs1
  | none =>
      match env.activateTargetFail with
      | some msg =>
          saveRollback env st1 source msg (effs1 ++ [Effect.copyFile source target])
      | none =>
          (HQResp.done, activate_backend st1 target,
           effs1 ++ [Effect.copyFile source target, Effect.activateBackend target])

/-- The command dictionary fields read by `handle_query` and `run_duckdb`.
`sql` is modelled as present for the commands that execute SQL. -/
structure Command where
  type : String
  sql : String
  persist : Bool
  queryId : Option String
  sourcePath : Option String
  targetPath : Option String
deriving DecidableEq, Repr

/-- Engine behavior presented to `run_duckdb`: how each engine-touching step
exits inside the worker (`con.execute`, `get_arrow_bytes`, `get_json`,
`insert_table_from_arrow_file`). -/
structure EngineEnv where
  execOutcome : String → Except WorkerErr Unit
  arrowOutcome : String → Except WorkerErr Val
  jsonOutcome : String → Except WorkerErr Val
  insertOutcome : Except WorkerErr Unit

/-- The tagged result dictionary returned by `run_duckdb`'s worker closure. -/
inductive RDResult where
| done
| arrow : Val → RDResult
| json : Val → RDResult
deriving DecidableEq, Repr

/-- The `arrow` / `json` paths of `run_duckdb`: the result goes through
`cache.retrieve` with the engine call as producer. -/
def runCached (h : String → String) (cache : Cache) (q : Command)
    (tag : Val → RDResult) (producer : String → Except WorkerErr Val) :
    Except WorkerErr (RDResult × Cache) :=
  let r := retrieve h cache { sql := q.sql, type := q.type, persist := q.persist } producer
  match r.result with
  | Except.ok v => Except.ok (tag v, r.cache)
  | Except.error e => Except.error e

/-- Shallow embedding of the `_execute_with_cursor` body of
`query.run_duckdb`: dispatch on the command type; `exec` executes the SQL,
`arrow` and `json` go through `cache.retrieve`, `insertArrowFile` registers
the mapped file, and an unknown type raises ValueError. -/
def run_duckdb (h : String → String) (cache : Cache) (q : Command)
    (eng : EngineEnv) : Except WorkerErr (RDResult × Cache) :=
  if q.type == "exec" then
    match eng.execOutcome q.sql with
    | Except.ok _ => Except.ok (RDResult.done, cache)
    | Except.error e => Except.error e
  else if q.type == "arrow" then
    runCached h cache q RDResult.arrow eng.arrowOutcome
  else if q.type == "json" then
    runCached h cache q RDResult.json eng.jsonOutcome
  else if q.type == "insertArrowFile" then
    match eng.insertOutcome with
    | Except.ok _ => Except.ok (RDResult.done, cache)
    | Except.error e => Except.error e
  else
    Except.error (WorkerErr.engineError ("Unknown command " ++ q.type))

/-- The environment of one `handle_query` call: the failure behavior of the
saveProjectAs steps, the engine behavior, whether `GLOBAL_CON` is
initialized, external cancellation of the awaiting task, the generated uuid,
the fresh cursor id, and which cursors' `interrupt()` raises. -/
structure HQEnv where
  save : SaveEnv
  eng : EngineEnv
  conInit : Bool
  externalCancel : Bool
  genId : String
  cursorId : Nat
  interruptRaises : Nat → Bool

/-- Everything observable about one `handle_query` call: the response, the
server state and active-query registry afterwards, and the calls made. -/
structure HQOut where
  resp : HQResp
  state : ServerState
  registry : Registry
  effects : List Effect
deriving Repr

/-- Shallow embedding of `server.handle_query` (without a custom handler):
reject every command while `shutdown_requested` is set, before any dispatch;
route `saveProjectAs` to the lifecycle procedure (paths missing or empty per
Python falsiness raise ValueError, identical paths are a no-op `done`); all
other commands go to `run_duckdb` through `db_async.run_db_task`, with
`CancelledError` reported as "Query was cancelled" and other exceptions as
error responses. -/
def handle_query (h : String → String) (st : ServerState) (reg : Registry)
    (q : Command) (env : HQEnv) : HQOut :=
  if st.shutdownRequested then
    { resp := HQResp.error "Server is shutting down", state := st, registry := reg
      effects := [] }
  else if q.type == "saveProjectAs" then
    match q.sourcePath, q.targetPath with
    | some s, some t =>
        if s.isEmpty || t.isEmpty then
          { resp := HQResp.error "Missing sourcePath or targetPath for saveProjectAs command"
            state := st, registry := reg, effects := [] }
        else if s == t then
          { resp := HQResp.done, state := st, registry := reg, effects := [] }
        else
          let r := saveProjectAs env.save st s t
          { resp := r.1, state := r.2.1, registry := reg, effects := r.2.2 }
    | _, _ =>
        { resp := HQResp.error "Missing sourcePath or targetPath for saveProjectAs command"
          state := st, registry := reg, effects := [] }
  else
    let qid := effectiveQueryId q.queryId env.genId
    let out := run_db_task env.conInit reg (some qid) env.genId env.cursorId
                 (run_duckdb h st.cache q env.eng) env.externalCancel env.interruptRaises
    match out.result with
    | Except.ok (r, cache2) =>
        { resp := match r with
                  | RDResult.done => HQResp.done
                  | RDResult.arrow v => HQResp.arrow v
                  | RDResult.json v => HQResp.json v
          state := { st with cache := cache2 }
          registry := out.registry
          effects := [Effect.engineDispatch q.type] }
    | Except.error DbErr.cancelled =>
        { resp := HQResp.error "Query was cancelled", state := st
          registry := out.registry, effects := [Effect.engineDispatch q.type] }
    | Except.error DbErr.noEngine =>
        { resp := HQResp.error "Global DuckDB connection not initialized", state := st
          registry := out.registry, effects := [Effect.engineDispatch q.type] }
    | Except.error (DbErr.engineError m) =>
        { resp := HQResp.error m, state := st
          registry := out.registry, effects := [Effect.engineDispatch q.type] }

/-- Python `identifier.split(".")` on the character list: splitting on the
single-character separator, so `""` gives `[""]`, `"a."` gives
`["a", ""]`. -/
def splitOnDot (l : List Char) : List (List Char) :=
  match l with
  | [] => [[]]
  | c :: t =>
      if c == '.' then [] :: splitOnDot t
      else
        match splitOnDot t with
        | [] => [[c]]
        | h2 :: r => (c :: h2) :: r

/-- Python `str.isalnum` per character, on the ASCII domain on which this
embedding is stated (Python additionally accepts non-ASCII Unicode
alphanumerics; those inputs are outside the modelled domain, which the
theorems restrict by an ASCII hypothesis). -/
def pyIsAlnumChar (c : Char) : Bool := c.isAlpha || c.isDigit

/-- Python `s.isalnum()` on the character list: non-empty and every
character alphanumeric. -/
def pyIsAlnum (l : List Char) : Bool :=
  !l.isEmpty && l.all pyIsAlnumChar

/-- The per-segment test of `dynamic_tile._quote_ident`:
`not part or not part.replace("_", "").isalnum()` raises; this is the
negation, the segment being kept. -/
def partValid (l : List Char) : Bool :=
  !l.isEmpty && pyIsAlnum (l.filter (fun c => !(c == '_')))

/-- The rejection condition for one segment exactly as the claim states it:
empty, or containing a character outside ASCII alphanumerics and
underscore. -/
def partRejectClaim (l : List Char) : Bool :=
  l.isEmpty || l.any (fun c => !(c == '_' || pyIsAlnumChar c))

/-- The amended rejection condition for one segment: additionally a segment
consisting only of underscores is rejected, because its underscore-stripped
form is empty and the empty string fails Python's `isalnum`. -/
def partRejectAmended (l : List Char) : Bool :=
  l.isEmpty || l.all (fun c => c == '_')
    || l.any (fun c => !(c == '_' || pyIsAlnumChar c))

/-- The claim's overall rejection condition for an identifier. -/
def claimRejects (identifier : String) : Bool :=
  (splitOnDot identifier.data).any partRejectClaim

/-- The amended overall rejection condition for an identifier. -/
def amendedRejects (identifier : String) : Bool :=
  (splitOnDot identifier.data).any partRejectAmended

/-- Shallow embedding of `dynamic_tile._quote_ident`: split the identifier
on ".", raise ValueError when a segment fails the per-segment test,
otherwise double-quote every segment and rejoin with ".". -/
def quote_ident (identifier : String) : Except String String :=
  let parts := splitOnDot identifier.data
  if parts.all partValid then
    Except.ok (String.intercalate "."
      (parts.map (fun p => "\"" ++ String.mk p ++ "\"")))
  else
    Except.error ("Invalid identifier: " ++ identifier)

/-- A single-quote character as a string, for the quoted literals inside the
composed SQL text. -/
def sq : String := String.singleton (Char.ofNat 39)

/-- Newline plus the 16-space indentation of the tile SQL template. -/
def nl16 : String := "\n                "

/-- `buffer_px = 20`, the anti-clipping margin in pixels. -/
def bufferPx : Nat := 20

/-- Tile SQL template, text before the interpolated `z, x, y`. -/
def tileChunk1 : String :=
  nl16 ++ "WITH bbox AS (" ++ nl16 ++ "  SELECT ST_TileEnvelope("

/-- Tile SQL template, text between `y` and the interpolated `buffer_px`. -/
def tileChunk2 : String :=
  ") AS b3857" ++ nl16 ++ "), params AS (" ++ nl16 ++ "  SELECT"
    ++ nl16 ++ "    b3857,"
    ++ nl16 ++ "    (ST_XMax(b3857) - ST_XMin(b3857)) / 256.0 AS meters_per_px"
    ++ nl16 ++ "  FROM bbox"
    ++ nl16 ++ "), buffered AS ("
    ++ nl16 ++ "  SELECT ST_Buffer(b3857, meters_per_px * "

/-- Tile SQL template, text between `buffer_px` and the first interpolated
column name. -/
def tileChunk3 : String :=
  ") AS bbuf" ++ nl16 ++ "  FROM params" ++ nl16 ++ "), envelope AS ("
    ++ nl16 ++ "  SELECT ST_Transform(bbuf, " ++ sq ++ "EPSG:3857" ++ sq
    ++ ", " ++ sq ++ "CRS84" ++ sq ++ ") AS env4326"
    ++ nl16 ++ "  FROM buffered"
    ++ nl16 ++ "), candidates AS ("
    ++ nl16 ++ "  SELECT ST_Transform("

/-- Tile SQL template, text between the first column name and the table
name. -/
def tileChunk4 : String :=
  ", " ++ sq ++ "CRS84" ++ sq ++ ", " ++ sq ++ "EPSG:3857" ++ sq
    ++ ") AS g3857" ++ nl16 ++ "  FROM "

/-- Tile SQL template, text between the table name and the second column
name. -/
def tileChunk5 : String :=
  ", envelope" ++ nl16 ++ "  WHERE ST_Intersects("

/-- Tile SQL template, text after the second column name. -/
def tileChunk6 : String :=
  ", envelope.env4326)"
    ++ nl16 ++ "  USING SAMPLE reservoir(50000 ROWS)"
    ++ nl16 ++ "  REPEATABLE (4321)"
    ++ nl16 ++ "), simplified AS ("
    ++ nl16 ++ "  SELECT ST_SimplifyPreserveTopology(g3857, meters_per_px * 0.75) AS gs"
    ++ nl16 ++ "  FROM candidates, params"
    ++ nl16 ++ "), clipped AS ("
    ++ nl16 ++ "  SELECT ST_Intersection(gs, bbuf) AS gc"
    ++ nl16 ++ "  FROM simplified, buffered"
    ++ nl16 ++ ")"
    ++ nl16 ++ "SELECT ST_AsText(gc) AS wkt"
    ++ nl16 ++ "FROM clipped"
    ++ nl16 ++ "WHERE NOT ST_IsEmpty(gc) "
    ++ nl16 ++ "--UNION ALL SELECT ST_AsText(ST_Transform(env4326, " ++ sq
    ++ "CRS84" ++ sq ++ ", " ++ sq ++ "EPSG:3857" ++ sq
    ++ ")) AS wkt FROM envelope" ++ "\n            "

/-- The single tile SQL statement composed by `DynamicTileResource.on_get`
for quoted table `q_table`, quoted column `q_column` and integer tile
coordinates `iz, ix, iy` (the f-string of `dynamic_tile.py`, split at its
interpolation points). -/
def tileSql (q_table q_column : String) (iz ix iy : Int) : String :=
  tileChunk1 ++ toString iz ++ ", " ++ toString ix ++ ", " ++ toString iy
    ++ tileChunk2 ++ toString bufferPx ++ tileChunk3 ++ q_column ++ tileChunk4
    ++ q_table ++ tileChunk5 ++ q_column ++ tileChunk6

/-- `pat` occurs as a contiguous substring of `s`. -/
def strContains (s pat : String) : Prop := pat.data <:+: s.data

/-- A concrete engine environment where every engine call succeeds. -/
def benignEngine : EngineEnv :=
  { execOutcome := fun _ => Except.ok ()
    arrowOutcome := fun _ => Except.ok (Val.vbytes [1])
    jsonOutcome := fun _ => Except.ok (Val.vstr "[]")
    insertOutcome := Except.ok () }

/-- A concrete `handle_query` environment in which ensuring the target
directory fails and every other step succeeds. -/
def ensureDirFailEnv : HQEnv :=
  { save := { ensureDirFail := some "mkdir failed", copyFail := none
              activateTargetFail := none, activateSourceFail := none }
    eng := benignEngine
    conInit := true, externalCancel := false, genId := "g", cursorId := 0
    interruptRaises := fun _ => false }

/-- A concrete `handle_query` environment in which the file copy fails and
every other step succeeds. -/
def copyFailEnv : HQEnv :=
  { save := { ensureDirFail := none, copyFail := some "copy failed"
              activateTargetFail := none, activateSourceFail := none }
    eng := benignEngine
    conInit := true, externalCancel := false, genId := "g", cursorId := 0
    interruptRaises := fun _ => false }

/-- A concrete idle server state whose session points at database path
"a". -/
def serverStateA : ServerState :=
  { shutdownRequested := false, databasePath := some "a", connOpen := true
    cache := [] }

/-- A concrete saveProjectAs command from path "a" to path "b". -/
def saveCommandAB : Command :=
  { type := "saveProjectAs", sql := "", persist := false, queryId := none
    sourcePath := some "a", targetPath := some "b" }

/-- Size of the shared worker pool `EXECUTOR`:
`max_workers = os.cpu_count() or 4`.  Python `or` keeps the left operand
whenever it is truthy, so an available CPU count is used as-is; 4 is only the
fallback for an unavailable (`None`, modelled also covering a falsy 0)
count. -/
def executorMaxWorkers (cpuCount : Option Nat) : Nat :=
  match cpuCount with
  | some n => if n = 0 then 4 else n
  | none => 4

end SqlRooms

namespace SqlRooms

/-- Claim C2 counterexample: the cache holds the (falsy) empty string under
the key of the query, yet `retrieve` invokes the producer and returns the
produced value rather than the cached one, because the code tests truthiness
(`if result:`) and not presence. -/
theorem C2_counterexample :
    cacheGet [(("H.json" : String), Val.vstr "")] (get_key (fun _ => "H") "s" "json")
      = some (Val.vstr "") ∧
    (retrieve (fun _ => "H") [(("H.json" : String), Val.vstr "")]
        { sql := "s", type := "json", persist := false }
        (fun _ => (Except.ok (Val.vstr "[1]") : Except String Val))).producerCalled = true ∧
    (retrieve (fun _ => "H") [(("H.json" : String), Val.vstr "")]
        { sql := "s", type := "json", persist := false }
        (fun _ => (Except.ok (Val.vstr "[1]") : Except String Val))).result
      = Except.ok (Val.vstr "[1]") := by
  refine ⟨rfl, rfl, rfl⟩

/-- Claim C2 (amended): writing `key` for `get_key(sql, type)`: if the cache
holds a truthy (non-empty) value under `key`, `retrieve` returns exactly that
value without calling the producer and leaves the cache unchanged; if the key
is absent or holds a falsy (empty) value and the producer succeeds,
`retrieve` calls the producer, stores the result exactly when `persist` is
true, and returns the computed result. -/
theorem C2_retrieve_amended (h : String → String) (cache : Cache)
    (query : CacheQuery) (get : String → Except String Val) :
    (∀ v, cacheGet cache (get_key h query.sql query.type) = some v → v.truthy = true →
      retrieve h cache query get =
        { result := Except.ok v, cache := cache, producerCalled := false }) ∧
    (∀ r, (∀ v, cacheGet cache (get_key h query.sql query.type) = some v → v.truthy = false) →
      get query.sql = Except.ok r →
      retrieve h cache query get =
        { result := Except.ok r
          cache := if query.persist then
                     cacheSet cache (get_key h query.sql query.type) r
                   else cache
          producerCalled := true }) := by
  constructor
  · intro v hv htr
    simp [retrieve, hv, htr]
  · intro r hmiss hget
    cases hcg : cacheGet cache (get_key h query.sql query.type) with
    | none => simp [retrieve, hcg, retrieveMiss, hget]
    | some v =>
        have hf := hmiss v hcg
        simp [retrieve, hcg, hf, retrieveMiss, hget]

/-- Witness for the amended claim C2 at concrete inputs: a truthy cache hit
is returned without running the producer. -/
theorem C2_retrieve_amended_witness :
    retrieve (fun _ => "H") [(("H.json" : String), Val.vstr "[2]")]
        { sql := "s", type := "json", persist := false }
        (fun _ => (Except.ok (Val.vstr "[1]") : Except String Val)) =
      { result := Except.ok (Val.vstr "[2]")
        cache := [(("H.json" : String), Val.vstr "[2]")]
        producerCalled := false } :=
  (C2_retrieve_amended (fun _ => "H") [(("H.json" : String), Val.vstr "[2]")]
    { sql := "s", type := "json", persist := false }
    (fun _ => (Except.ok (Val.vstr "[1]") : Except String Val))).1 (Val.vstr "[2]") rfl rfl

/-- Claim C9: when the cache lookup misses (the key is absent) and the
producer raises, `retrieve` propagates exactly that exception and leaves the
cache unmodified, regardless of the `persist` flag. -/
theorem C9_retrieve_error (h : String → String) (cache : Cache)
    (query : CacheQuery) (get : String → Except String Val) (e : String)
    (hmiss : cacheGet cache (get_key h query.sql query.type) = none)
    (hget : get query.sql = Except.error e) :
    retrieve h cache query get =
      { result := Except.error e, cache := cache, producerCalled := true } := by
  simp [retrieve, hmiss, retrieveMiss, hget]

/-- Witness for claim C9 at concrete inputs: an empty cache and a raising
producer, with `persist = true`. -/
theorem C9_retrieve_error_witness :
    retrieve (fun _ => "H") ([] : Cache)
        { sql := "s", type := "json", persist := true }
        (fun _ => (Except.error "boom" : Except String Val)) =
      { result := Except.error "boom", cache := [], producerCalled := true } :=
  C9_retrieve_error (fun _ => "H") [] { sql := "s", type := "json", persist := true }
    (fun _ => (Except.error "boom" : Except String Val)) "boom" rfl rfl

theorem regGet_eq_none_of_not_mem (reg : Registry) (k : String)
    (h : k ∉ reg.map Prod.fst) : regGet reg k = none := by
  induction reg with
  | nil => rfl
  | cons p t ih =>
      have h1 : ¬ (k = p.1) := fun hk => h (by simp [hk])
      have h2 : k ∉ t.map Prod.fst := fun hk => h (by simp [hk])
      have hbeq : (p.1 == k) = false := by
        exact beq_eq_false_iff_ne.mpr (fun he => h1 he.symm)
      simp [regGet, hbeq, ih h2]

theorem regGet_register_self (reg : Registry) (k : String) (v : QueryRecord) :
    regGet (register_query reg k v) k = some v := by
  induction reg with
  | nil => simp [register_query, regGet]
  | cons p t ih =>
      cases hpk : p.1 == k with
      | true => simp [register_query, hpk, regGet]
      | false => simp [register_query, hpk, regGet, ih]

theorem keys_register (reg : Registry) (k : String) (v : QueryRecord) :
    (register_query reg k v).map Prod.fst =
      if k ∈ reg.map Prod.fst then reg.map Prod.fst
      else reg.map Prod.fst ++ [k] := by
  induction reg with
  | nil => simp [register_query]
  | cons p t ih =>
      by_cases hpk : p.1 = k
      · have hb : (p.1 == k) = true := beq_iff_eq.mpr hpk
        simp [register_query, hb, hpk]
      · have hb : (p.1 == k) = false := beq_eq_false_iff_ne.mpr hpk
        have hpk2 : ¬ (k = p.1) := fun he => hpk he.symm
        by_cases hkt : k ∈ t.map Prod.fst
        · simp [register_query, hb, ih, hkt, hpk2]
        · simp [register_query, hb, ih, hkt, hpk2]

theorem nodup_keys_register (reg : Registry) (k : String) (v : QueryRecord)
    (h : (reg.map Prod.fst).Nodup) :
    ((register_query reg k v).map Prod.fst).Nodup := by
  rw [keys_register]
  by_cases hk : k ∈ reg.map Prod.fst
  · simpa [hk] using h
  · simp [hk, List.nodup_append, h]

theorem regGet_unregister_self (reg : Registry) (k : String)
    (h : (reg.map Prod.fst).Nodup) :
    regGet (unregister_query reg k) k = none := by
  induction reg with
  | nil => rfl
  | cons p t ih =>
      simp only [List.map_cons, List.nodup_cons] at h
      cases hpk : p.1 == k with
      | true =>
          have hk : p.1 = k := eq_of_beq hpk
          simp only [unregister_query, hpk, if_true]
          exact regGet_eq_none_of_not_mem t k (by rw [← hk]; exact h.1)
      | false =>
          simp only [unregister_query, hpk, Bool.false_eq_true, if_false, regGet]
          simpa [hpk] using ih h.2

/-- Claim C5: `cancel_query` returns true exactly when the id is present in
the registry; when found it delivers `interrupt()` to the record's cursor
unless the interrupt itself raises, an interrupt failure not changing the
return value; and `POST /cancel` answers 200 exactly when the id was found
and 404 exactly when it was not (for a non-empty queryId). -/
theorem C5_cancel_query (interruptRaises : Nat → Bool) (reg : Registry)
    (qid : String) (hq : qid.isEmpty = false) :
    ((cancel_query interruptRaises reg qid).found = true ↔
      (regGet reg qid).isSome = true) ∧
    (∀ r, regGet reg qid = some r →
      (cancel_query interruptRaises reg qid).found = true ∧
      (cancel_query interruptRaises reg qid).interrupted =
        (if interruptRaises r.cursorId then [] else [r.cursorId])) ∧
    (cancelOnPostStatus interruptRaises reg (some qid) = 200 ↔
      (regGet reg qid).isSome = true) ∧
    (cancelOnPostStatus interruptRaises reg (some qid) = 404 ↔
      (regGet reg qid).isSome = false) := by
  cases hr : regGet reg qid with
  | some r => simp [cancel_query, cancelOnPostStatus, hr, hq]
  | none => simp [cancel_query, cancelOnPostStatus, hr, hq]

/-- Witness for claim C5 at concrete inputs: a registered id is found,
its cursor is interrupted, and the endpoint answers 200. -/
theorem C5_cancel_query_witness :
    (cancel_query (fun _ => false) [(("q1" : String), QueryRecord.mk 7)] "q1").found = true ∧
    cancelOnPostStatus (fun _ => false) [(("q1" : String), QueryRecord.mk 7)] (some "q1")
      = 200 :=
  ⟨((C5_cancel_query (fun _ => false) [(("q1" : String), QueryRecord.mk 7)] "q1" rfl).2.1
      (QueryRecord.mk 7) rfl).1,
   (C5_cancel_query (fun _ => false) [(("q1" : String), QueryRecord.mk 7)] "q1" rfl).2.2.1.mpr
      rfl⟩

/-- Claim C10: `register_query` with an already-present queryId silently
replaces the record: the registry keeps pairwise distinct ids, the id now
maps to the new record, and a subsequent `cancel_query` with that id
interrupts only the most recently registered query's cursor. -/
theorem C10_register_replaces (reg : Registry) (k : String) (v : QueryRecord)
    (interruptRaises : Nat → Bool)
    (hnd : (reg.map Prod.fst).Nodup) (hir : interruptRaises v.cursorId = false) :
    regGet (register_query reg k v) k = some v ∧
    ((register_query reg k v).map Prod.fst).Nodup ∧
    cancel_query interruptRaises (register_query reg k v) k =
      { found := true, interrupted := [v.cursorId] } := by
  refine ⟨regGet_register_self reg k v, nodup_keys_register reg k v hnd, ?_⟩
  simp [cancel_query, regGet_register_self reg k v, hir]

/-- Witness for claim C10 at concrete inputs: re-registering id `q1` replaces
cursor 1 by cursor 2 and cancelling interrupts only cursor 2. -/
theorem C10_register_replaces_witness :
    regGet (register_query [(("q1" : String), QueryRecord.mk 1)] "q1" (QueryRecord.mk 2)) "q1"
      = some (QueryRecord.mk 2) ∧
    cancel_query (fun _ => false)
        (register_query [(("q1" : String), QueryRecord.mk 1)] "q1" (QueryRecord.mk 2)) "q1" =
      { found := true, interrupted := [2] } :=
  ⟨(C10_register_replaces [(("q1" : String), QueryRecord.mk 1)] "q1" (QueryRecord.mk 2)
      (fun _ => false) (by decide) rfl).1,
   (C10_register_replaces [(("q1" : String), QueryRecord.mk 1)] "q1" (QueryRecord.mk 2)
      (fun _ => false) (by decide) rfl).2.2⟩

/-- Claim C1 counterexample: with distinct paths "a" and "b", the
ensure-target-directory step raises, yet `handle_query` completes with
`done`, the active session points at the target "b", and
`activate_backend("a")` is never called: the error of this step is caught
and only logged, so it does not trigger the claimed rollback and re-raise. -/
theorem C1_counterexample :
    ensureDirFailEnv.save.ensureDirFail = some "mkdir failed" ∧
    (handle_query (fun _ => "H") serverStateA [] saveCommandAB ensureDirFailEnv).resp
      = HQResp.done ∧
    (handle_query (fun _ => "H") serverStateA [] saveCommandAB
        ensureDirFailEnv).state.databasePath = some "b" ∧
    Effect.activateBackend "a" ∉
      (handle_query (fun _ => "H") serverStateA [] saveCommandAB ensureDirFailEnv).effects := by
  refine ⟨rfl, rfl, rfl, ?_⟩
  decide

/-- Claim C1 (amended): for a saveProjectAs command with distinct non-empty
source and target paths, if copying the file or activating the target raises
an error, `handle_query` calls `activate_backend(sourcePath)` and re-raises
the original error, so on such a failure (with the restore itself
succeeding) the active session points at the source path; an error while
ensuring the target directory, however, is caught and logged and by itself
triggers no rollback. -/
theorem C1_save_rollback_amended (h : String → String) (st : ServerState)
    (reg : Registry) (q : Command) (env : HQEnv) (s t msg : String)
    (hsd : st.shutdownRequested = false)
    (htype : q.type = "saveProjectAs")
    (hsrc : q.sourcePath = some s) (htgt : q.targetPath = some t)
    (hse : s.isEmpty = false) (hte : t.isEmpty = false) (hne : (s == t) = false)
    (hfail : env.save.copyFail = some msg ∨
      (env.save.copyFail = none ∧ env.save.activateTargetFail = some msg))
    (hrestore : env.save.activateSourceFail = none) :
    (handle_query h st reg q env).resp = HQResp.error msg ∧
    (handle_query h st reg q env).state.databasePath = some s ∧
    (handle_query h st reg q env).state.shutdownRequested = false ∧
    (handle_query h st reg q env).state.connOpen = true ∧
    Effect.activateBackend s ∈ (handle_query h st reg q env).effects := by
  have hq : (q.type == "saveProjectAs") = true := by rw [htype]; rfl
  rcases hfail with hcopy | ⟨hcopy, hact⟩
  · simp [handle_query, hsd, hq, hsrc, htgt, hse, hte, hne, saveProjectAs, hcopy,
      saveRollback, hrestore, activate_backend, deactivate_backend]
  · simp [handle_query, hsd, hq, hsrc, htgt, hse, hte, hne, saveProjectAs, hcopy, hact,
      saveRollback, hrestore, activate_backend, deactivate_backend]

/-- Witness for the amended claim C1 at concrete inputs: a failing copy from
"a" to "b" is rolled back and re-raised, leaving the session at "a". -/
theorem C1_save_rollback_amended_witness :
    (handle_query (fun _ => "H") serverStateA [] saveCommandAB copyFailEnv).resp
      = HQResp.error "copy failed" ∧
    (handle_query (fun _ => "H") serverStateA [] saveCommandAB
        copyFailEnv).state.databasePath = some "a" ∧
    Effect.activateBackend "a" ∈
      (handle_query (fun _ => "H") serverStateA [] saveCommandAB copyFailEnv).effects := by
  have hres := C1_save_rollback_amended (fun _ => "H") serverStateA [] saveCommandAB
    copyFailEnv "a" "b" "copy failed" rfl rfl rfl rfl rfl rfl (by decide)
    (Or.inl rfl) rfl
  exact ⟨hres.1, hres.2.1, hres.2.2.2.2⟩

/-- Claim C6: a command arriving while `shutdown_requested` is true fails
with the user-visible shutting-down error before any dispatch: no engine
call is made and neither the server state nor the registry changes. -/
theorem C6_shutdown_guard (h : String → String) (st : ServerState)
    (reg : Registry) (q : Command) (env : HQEnv)
    (hs : st.shutdownRequested = true) :
    handle_query h st reg q env =
      { resp := HQResp.error "Server is shutting down", state := st
        registry := reg, effects := [] } := by
  simp [handle_query, hs]

/-- Witness for claim C6 at concrete inputs. -/
theorem C6_shutdown_guard_witness :
    handle_query (fun _ => "H")
        { shutdownRequested := true, databasePath := some "a", connOpen := true
          cache := [] } [] saveCommandAB ensureDirFailEnv =
      { resp := HQResp.error "Server is shutting down"
        state := { shutdownRequested := true, databasePath := some "a"
                   connOpen := true, cache := [] }
        registry := [], effects := [] } :=
  C6_shutdown_guard (fun _ => "H")
    { shutdownRequested := true, databasePath := some "a", connOpen := true
      cache := [] } [] saveCommandAB ensureDirFailEnv rfl

/-- Claim C3: whenever the global connection is initialized, on every exit
path of the submitted worker (normal completion, engine error, engine
interrupt) the per-task cursor is closed; on every exit path of the awaiting
caller (result, exception, external cancellation) the query id is no longer
in the active-query registry; and an engine interrupt is surfaced to the
caller as a Cancelled error. -/
theorem C3_run_db_task (α : Type) (reg : Registry) (queryId : Option String)
    (genId : String) (cursorId : Nat) (outcome : Except WorkerErr α)
    (externalCancel : Bool) (interruptRaises : Nat → Bool)
    (hnd : (reg.map Prod.fst).Nodup) :
    (run_db_task true reg queryId genId cursorId outcome externalCancel
        interruptRaises).cursorClosed = true ∧
    regGet (run_db_task true reg queryId genId cursorId outcome externalCancel
        interruptRaises).registry (effectiveQueryId queryId genId) = none ∧
    (outcome = Except.error WorkerErr.interrupted →
      (run_db_task true reg queryId genId cursorId outcome externalCancel
        interruptRaises).result = Except.error DbErr.cancelled) := by
  refine ⟨?_, ?_, ?_⟩
  · match outcome with
    | Except.ok _ => rfl
    | Except.error (WorkerErr.engineError _) => rfl
    | Except.error WorkerErr.interrupted => rfl
  · exact regGet_unregister_self _ _
      (nodup_keys_register reg (effectiveQueryId queryId genId) ⟨cursorId⟩ hnd)
  · intro h
    subst h
    cases externalCancel <;> rfl

/-- Witness for claim C3 at concrete inputs: an engine interrupt with no
external cancellation closes the cursor, empties the registry and yields a
Cancelled result. -/
theorem C3_run_db_task_witness :
    (run_db_task true ([] : Registry) (some "q1") "g" 5
        (Except.error WorkerErr.interrupted : Except WorkerErr Nat) false
        (fun _ => false)).cursorClosed = true ∧
    regGet (run_db_task true ([] : Registry) (some "q1") "g" 5
        (Except.error WorkerErr.interrupted : Except WorkerErr Nat) false
        (fun _ => false)).registry (effectiveQueryId (some "q1") "g") = none ∧
    (run_db_task true ([] : Registry) (some "q1") "g" 5
        (Except.error WorkerErr.interrupted : Except WorkerErr Nat) false
        (fun _ => false)).result = Except.error DbErr.cancelled := by
  have h := C3_run_db_task Nat [] (some "q1") "g" 5
    (Except.error WorkerErr.interrupted) false (fun _ => false) (by decide)
  exact ⟨h.1, h.2.1, h.2.2 rfl⟩

theorem filter_not_underscore_isEmpty (l : List Char) :
    (l.filter (fun c => !(c == '_'))).isEmpty = l.all (fun c => c == '_') := by
  induction l with
  | nil => rfl
  | cons c t ih =>
      cases hc : c == '_' with
      | true => simp [List.filter_cons, hc, ih]
      | false => simp [List.filter_cons, hc]

theorem filter_not_underscore_all (l : List Char) :
    (l.filter (fun c => !(c == '_'))).all pyIsAlnumChar
      = l.all (fun c => c == '_' || pyIsAlnumChar c) := by
  induction l with
  | nil => rfl
  | cons c t ih =>
      cases hc : c == '_' with
      | true => simp [List.filter_cons, hc, ih]
      | false => simp [List.filter_cons, hc, ih]

theorem all_not_eq_not_any {α : Type} (l : List α) (p : α → Bool) :
    (l.all (fun c => !(p c))) = !(l.any p) := by
  induction l with
  | nil => rfl
  | cons c t ih => simp [ih]

theorem any_not_eq_not_all {α : Type} (l : List α) (p : α → Bool) :
    (l.any (fun c => !(p c))) = !(l.all p) := by
  induction l with
  | nil => rfl
  | cons c t ih => simp [ih]

theorem partValid_eq_not_reject (l : List Char) :
    partValid l = !(partRejectAmended l) := by
  simp only [partValid, partRejectAmended, pyIsAlnum,
    filter_not_underscore_isEmpty, filter_not_underscore_all, any_not_eq_not_all]
  generalize l.isEmpty = e
  generalize l.all (fun c => c == '_') = u
  generalize l.all (fun c => c == '_' || pyIsAlnumChar c) = a
  cases e <;> cases u <;> cases a <;> rfl

theorem all_partValid_eq (parts : List (List Char)) :
    parts.all partValid = !(parts.any partRejectAmended) := by
  have h : partValid = fun l => !(partRejectAmended l) := funext partValid_eq_not_reject
  rw [h, all_not_eq_not_any]

/-- Claim C4 counterexample: the identifier "_" has a single non-empty
segment whose characters all lie in the claimed safe class `[A-Za-z0-9_]`,
so the claim says it is accepted; the code rejects it, because stripping
underscores leaves the empty string and `"".isalnum()` is false. -/
theorem C4_counterexample :
    claimRejects "_" = false ∧
    quote_ident "_" = Except.error "Invalid identifier: _" := by
  constructor
  · rfl
  · rfl

/-- Claim C4 (amended), stated on ASCII identifiers (Python's `isalnum`
additionally accepts non-ASCII Unicode alphanumerics, outside the modelled
domain): the identifier is split on "."; it is rejected with
InvalidIdentifier exactly when some segment is empty, consists only of
underscores, or contains a character outside ASCII alphanumerics and
underscore; accepted identifiers have each segment double-quoted and
rejoined with ".". -/
theorem C4_quote_ident_amended (identifier : String)
    (hascii : identifier.data.all (fun c => c.toNat < 128) = true) :
    (amendedRejects identifier = true →
      quote_ident identifier = Except.error ("Invalid identifier: " ++ identifier)) ∧
    (amendedRejects identifier = false →
      quote_ident identifier = Except.ok (String.intercalate "."
        ((splitOnDot identifier.data).map (fun p => "\"" ++ String.mk p ++ "\"")))) := by
  have hall : (splitOnDot identifier.data).all partValid = !(amendedRejects identifier) := by
    simp only [amendedRejects]
    exact all_partValid_eq _
  constructor
  · intro hr
    simp [quote_ident, hall, hr]
  · intro hr
    simp [quote_ident, hall, hr]

/-- Witness for the amended claim C4 at concrete inputs: the
schema-qualified identifier "public.roads" is accepted and quoted. -/
theorem C4_quote_ident_amended_witness :
    quote_ident "public.roads" = Except.ok "\"public\".\"roads\"" :=
  ((C4_quote_ident_amended "public.roads" (by decide)).2 rfl).trans rfl

theorem strContains_of_middle (pre mid post pat : String)
    (h : pat.data <:+: mid.data) : strContains (pre ++ mid ++ post) pat := by
  show pat.data <:+: ((pre ++ mid) ++ post).data
  rw [String.data_append, String.data_append]
  obtain ⟨s, t, hs⟩ := h
  exact ⟨pre.data ++ s, t ++ post.data, by rw [← hs]; simp⟩

theorem strContains_of_last (pre mid pat : String)
    (h : pat.data <:+: mid.data) : strContains (pre ++ mid) pat := by
  show pat.data <:+: (pre ++ mid).data
  rw [String.data_append]
  obtain ⟨s, t, hs⟩ := h
  exact ⟨pre.data ++ s, t, by rw [← hs]; simp⟩

theorem tileSql_decompA (q_table q_column : String) (iz ix iy : Int) :
    tileSql q_table q_column iz ix iy =
      (tileChunk1 ++ toString iz ++ ", " ++ toString ix ++ ", " ++ toString iy)
        ++ (tileChunk2 ++ toString bufferPx ++ tileChunk3)
        ++ (q_column ++ tileChunk4 ++ q_table ++ tileChunk5 ++ q_column
            ++ tileChunk6) := by
  simp [tileSql, String.append_assoc]

theorem tileSql_decompB (q_table q_column : String) (iz ix iy : Int) :
    tileSql q_table q_column iz ix iy =
      (tileChunk1 ++ toString iz ++ ", " ++ toString ix ++ ", " ++ toString iy
        ++ tileChunk2 ++ toString bufferPx ++ tileChunk3 ++ q_column
        ++ tileChunk4 ++ q_table ++ tileChunk5 ++ q_column)
        ++ tileChunk6 := by
  simp [tileSql, String.append_assoc]

/-- Claim C8: for every quoted table, quoted column and tile coordinates,
the single composed tile SQL statement computes
`meters_per_px = (xmax - xmin) / 256`, buffers the tile envelope by
`meters_per_px * 20`, applies a reservoir sample of up to 50000 rows with
fixed seed 4321, simplifies preserving topology with tolerance
`meters_per_px * 0.75`, and emits WKT only for non-empty clipped geometries
(`WHERE NOT ST_IsEmpty`). -/
theorem C8_tile_sql (q_table q_column : String) (iz ix iy : Int) :
    strContains (tileSql q_table q_column iz ix iy)
      "(ST_XMax(b3857) - ST_XMin(b3857)) / 256.0 AS meters_per_px" ∧
    strContains (tileSql q_table q_column iz ix iy)
      "ST_Buffer(b3857, meters_per_px * 20)" ∧
    strContains (tileSql q_table q_column iz ix iy)
      "USING SAMPLE reservoir(50000 ROWS)" ∧
    strContains (tileSql q_table q_column iz ix iy)
      "REPEATABLE (4321)" ∧
    strContains (tileSql q_table q_column iz ix iy)
      "ST_SimplifyPreserveTopology(g3857, meters_per_px * 0.75)" ∧
    strContains (tileSql q_table q_column iz ix iy)
      "SELECT ST_AsText(gc) AS wkt" ∧
    strContains (tileSql q_table q_column iz ix iy)
      "WHERE NOT ST_IsEmpty(gc)" := by
  refine ⟨?_, ?_, ?_, ?_, ?_, ?_, ?_⟩
  · rw [tileSql_decompA q_table q_column iz ix iy]
    exact strContains_of_middle _ _ _ _ (by decide)
  · rw [tileSql_decompA q_table q_column iz ix iy]
    exact strContains_of_middle _ _ _ _ (by decide)
  · rw [tileSql_decompB q_table q_column iz ix iy]
    exact strContains_of_last _ _ _ (by decide)
  · rw [tileSql_decompB q_table q_column iz ix iy]
    exact strContains_of_last _ _ _ (by decide)
  · rw [tileSql_decompB q_table q_column iz ix iy]
    exact strContains_of_last _ _ _ (by decide)
  · rw [tileSql_decompB q_table q_column iz ix iy]
    exact strContains_of_last _ _ _ (by decide)
  · rw [tileSql_decompB q_table q_column iz ix iy]
    exact strContains_of_last _ _ _ (by decide)

/-- Claim C7 counterexample: on a machine whose CPU count is 2, the pool is
created with `max_workers = os.cpu_count() or 4 = 2`, not the claimed
minimum of 4. -/
theorem C7_counterexample :
    executorMaxWorkers (some 2) = 2 ∧ (2 : Nat) < 4 ∧ executorMaxWorkers (some 2) ≠ 4 := by
  decide

/-- Claim C7 (amended): `max_workers = os.cpu_count() or 4` equals the CPU
count whenever one is available (any positive count, with no minimum
applied), and 4 only when the count is unavailable. -/
theorem C7_executor_amended :
    (∀ n : Nat, executorMaxWorkers (some (n + 1)) = n + 1) ∧
    executorMaxWorkers none = 4 := by
  constructor
  · intro n
    simp [executorMaxWorkers]
  · rfl

end SqlRooms
